import Mathlib

set_option maxRecDepth 100000

/-!
Formal model of the chunk codec implemented in `src/chunk_type.rs` and
`src/chunk.rs`. Bytes are modelled as `Nat` values (a `u8` is a `Nat`
below 256), byte buffers as `List Nat`, `u32` arithmetic as `Nat` with an
explicit `% 2 ^ 32` where the source truncates, and Rust panics as a
distinguished outcome (`none` of an `Option`, or `ParseOutcome.panic`).
-/

namespace Pngme

/-- Decidable equality for `Except`, used to evaluate the modelled
fallible operations on concrete inputs. -/
instance {ε α : Type} [DecidableEq ε] [DecidableEq α] : DecidableEq (Except ε α) :=
  fun a b =>
    match a, b with
    | Except.ok x, Except.ok y =>
      if h : x = y then isTrue (by rw [h]) else isFalse (by simp [h])
    | Except.error x, Except.error y =>
      if h : x = y then isTrue (by rw [h]) else isFalse (by simp [h])
    | Except.ok _, Except.error _ => isFalse (by simp)
    | Except.error _, Except.ok _ => isFalse (by simp)

/-- One bit step of CRC-32/IEEE in reflected form (polynomial 0xEDB88320),
as computed by the call `crc::crc32::checksum_ieee` used in `Chunk::new`. -/
def crcBit (c : Nat) : Nat :=
  if c % 2 = 1 then (c / 2) ^^^ 0xEDB88320 else c / 2

/-- One byte step of CRC-32/IEEE: xor the byte into the state, then eight
bit steps. -/
def crcByte (c b : Nat) : Nat :=
  crcBit (crcBit (crcBit (crcBit (crcBit (crcBit (crcBit (crcBit (c ^^^ b))))))))

/-- Model of `crc::crc32::checksum_ieee`: initial state 0xFFFFFFFF, byte
steps over the data, final xor with 0xFFFFFFFF. -/
def checksum_ieee (data : List Nat) : Nat :=
  (data.foldl crcByte 0xFFFFFFFF) ^^^ 0xFFFFFFFF

/-- Model of `struct ChunkType` from `src/chunk_type.rs`: it stores a
`Vec<u8>`, with no length constraint imposed by the type itself. -/
structure ChunkType where
  bytes : List Nat
deriving DecidableEq

/-- Model of the free function `fifth_bit_is_zero` from
`src/chunk_type.rs`: bitwise and with 0b00100000 is zero. -/
def fifth_bit_is_zero (byte : Nat) : Bool :=
  byte &&& 0b00100000 == 0

namespace ChunkType

/-- Model of `ChunkType::bytes()`: converts the stored vector to a
`[u8; 4]` with `try_into().expect(..)`, which panics when the vector does
not hold exactly 4 bytes; `none` models that panic. -/
def bytesArr (ct : ChunkType) : Option (List Nat) :=
  if ct.bytes.length = 4 then some ct.bytes else none

/-- Model of `ChunkType::is_bytes_value_valid`: every stored byte lies in
65..=90 or 97..=122 (ASCII letters). -/
def is_bytes_value_valid (ct : ChunkType) : Bool :=
  ct.bytes.all fun x =>
    (decide (65 ≤ x) && decide (x ≤ 90)) || (decide (97 ≤ x) && decide (x ≤ 122))

/-- Model of `ChunkType::is_critical`: bit 5 of byte 0 is clear. The
source indexes `self.bytes[0]`; the model is only exercised on tags where
that index is in bounds, and uses 0 as the out-of-bounds default. -/
def is_critical (ct : ChunkType) : Bool :=
  fifth_bit_is_zero (ct.bytes.getD 0 0)

/-- Model of `ChunkType::is_public`: bit 5 of byte 1 is clear. -/
def is_public (ct : ChunkType) : Bool :=
  fifth_bit_is_zero (ct.bytes.getD 1 0)

/-- Model of `ChunkType::is_reserved_bit_valid`: bit 5 of byte 2 is
clear. -/
def is_reserved_bit_valid (ct : ChunkType) : Bool :=
  fifth_bit_is_zero (ct.bytes.getD 2 0)

/-- Model of `ChunkType::is_safe_to_copy`: bit 5 of byte 3 is set. -/
def is_safe_to_copy (ct : ChunkType) : Bool :=
  !fifth_bit_is_zero (ct.bytes.getD 3 0)

/-- Model of `ChunkType::is_valid`: letter check and reserved-bit check. -/
def is_valid (ct : ChunkType) : Bool :=
  ct.is_bytes_value_valid && ct.is_reserved_bit_valid

/-- Model of `impl TryFrom<[u8; 4]> for ChunkType`: unconditionally
succeeds, storing the four given bytes verbatim. -/
def tryFromArr (value : List Nat) : Except String ChunkType :=
  Except.ok ⟨value⟩

/-- Model of `impl FromStr for ChunkType` (`from_str`): the argument is
the UTF-8 byte sequence of the input string. Rejects when the string has
more than 4 bytes, or when some byte is not an ASCII letter; accepts
otherwise, storing the bytes. -/
def from_str (s : List Nat) : Except String ChunkType :=
  if 4 < s.length then Except.error "Invalid size"
  else
    let chunk : ChunkType := ⟨s⟩
    if !chunk.is_bytes_value_valid then Except.error "Invalid chunk"
    else Except.ok chunk

/-- Model of `impl From<String> for ChunkType`: stores the UTF-8 bytes of
the string, whatever their number or values. -/
def fromString (s : List Nat) : ChunkType :=
  ⟨s⟩

/-- Helper for the UTF-8 validity check: a continuation byte lies in
0x80..=0xBF. -/
def isCont (b : Nat) : Bool :=
  decide (0x80 ≤ b) && decide (b ≤ 0xBF)

/-- Validity of a byte sequence as UTF-8, as checked by the standard
library function `String::from_utf8` used in the `Display`
implementation: ASCII, and 2-, 3- and 4-byte sequences with overlong
forms, surrogates and code points above 0x10FFFF rejected. -/
def utf8Valid : List Nat → Bool
  | [] => true
  | b :: rest =>
    if b ≤ 0x7F then utf8Valid rest
    else if decide (0xC2 ≤ b) && decide (b ≤ 0xDF) then
      match rest with
      | b1 :: rest1 => isCont b1 && utf8Valid rest1
      | [] => false
    else if b == 0xE0 then
      match rest with
      | b1 :: b2 :: rest2 =>
        (decide (0xA0 ≤ b1) && decide (b1 ≤ 0xBF)) && isCont b2 && utf8Valid rest2
      | _ => false
    else if (decide (0xE1 ≤ b) && decide (b ≤ 0xEC)) || b == 0xEE || b == 0xEF then
      match rest with
      | b1 :: b2 :: rest2 => isCont b1 && isCont b2 && utf8Valid rest2
      | _ => false
    else if b == 0xED then
      match rest with
      | b1 :: b2 :: rest2 =>
        (decide (0x80 ≤ b1) && decide (b1 ≤ 0x9F)) && isCont b2 && utf8Valid rest2
      | _ => false
    else if b == 0xF0 then
      match rest with
      | b1 :: b2 :: b3 :: rest3 =>
        (decide (0x90 ≤ b1) && decide (b1 ≤ 0xBF)) && isCont b2 && isCont b3 &&
          utf8Valid rest3
      | _ => false
    else if decide (0xF1 ≤ b) && decide (b ≤ 0xF3) then
      match rest with
      | b1 :: b2 :: b3 :: rest3 => isCont b1 && isCont b2 && isCont b3 && utf8Valid rest3
      | _ => false
    else if b == 0xF4 then
      match rest with
      | b1 :: b2 :: b3 :: rest3 =>
        (decide (0x80 ≤ b1) && decide (b1 ≤ 0x8F)) && isCont b2 && isCont b3 &&
          utf8Valid rest3
      | _ => false
    else false

/-- Model of `impl Display for ChunkType`: it calls
`String::from_utf8(bytes).unwrap()` and writes the resulting string. The
rendered text carries exactly the stored bytes when they are valid UTF-8;
`none` models the `unwrap` panic on invalid UTF-8. -/
def display (ct : ChunkType) : Option (List Nat) :=
  if utf8Valid ct.bytes then some ct.bytes else none

end ChunkType

/-- Model of `struct Chunk` from `src/chunk.rs`: a `usize` length, a tag,
the data bytes, and the stored CRC. -/
structure Chunk where
  length : Nat
  chunk_type : ChunkType
  chunk_data : List Nat
  crc : Nat
deriving DecidableEq

/-- Model of the free function `bytes_to_number` from `src/chunk.rs`:
big-endian `u32` from a `[u8; 4]`. -/
def bytes_to_number (bytes : List Nat) : Nat :=
  bytes.getD 0 0 * 2 ^ 24 + bytes.getD 1 0 * 2 ^ 16 + bytes.getD 2 0 * 2 ^ 8 +
    bytes.getD 3 0

/-- Big-endian byte encoding of a `u32`, as `u32::to_be_bytes` produces
for values below 2 ^ 32. -/
def u32_be (n : Nat) : List Nat :=
  [n / 2 ^ 24 % 256, n / 2 ^ 16 % 256, n / 2 ^ 8 % 256, n % 256]

/-- Outcome of `Chunk::try_from`: success, a returned error, or a panic of
the process. -/
inductive ParseOutcome where
  | ok : Chunk → ParseOutcome
  | err : String → ParseOutcome
  | panic : ParseOutcome
deriving DecidableEq

namespace Chunk

/-- Model of `Chunk::new`: stores the data and its length (a `usize`, so
without truncation), and computes the CRC over the 4 tag bytes followed by
the data. It calls the panicking accessor `ChunkType::bytes()`, so `none`
models a panic when the tag does not hold exactly 4 bytes. -/
def new (chunk_type : ChunkType) (data : List Nat) : Option Chunk :=
  match chunk_type.bytesArr with
  | none => none
  | some tb =>
    some { length := data.length
           chunk_type := chunk_type
           chunk_data := data
           crc := checksum_ieee (tb ++ data) }

/-- Model of `Chunk::length()`: the stored `usize` cast to `u32`. -/
def lengthU32 (c : Chunk) : Nat :=
  c.length % 2 ^ 32

/-- Model of `impl TryFrom<&Vec<u8>> for Chunk`. The slice `&value[..4]`
panics below 4 bytes, `value_slice[4..8]` below 8 bytes, and
`rest_bytes.len() - 4` underflows (after which the slice panics) below 12
bytes; those executions are `ParseOutcome.panic`. The strings are the
error values returned by the source. -/
def tryFrom (value : List Nat) : ParseOutcome :=
  if value.length < 4 then ParseOutcome.panic
  else if value.length < 8 then ParseOutcome.panic
  else
    let data_length := bytes_to_number (value.take 4)
    match ChunkType.tryFromArr ((value.drop 4).take 4) with
    | Except.error _ => ParseOutcome.err "Failed to build chunk type"
    | Except.ok chunk_type =>
      let rest_bytes := value.drop 8
      if rest_bytes.length < 4 then ParseOutcome.panic
      else
        let crc_starting_index := rest_bytes.length - 4
        let crc_bytes := rest_bytes.drop crc_starting_index
        let data := rest_bytes.take crc_starting_index
        match Chunk.new chunk_type data with
        | none => ParseOutcome.panic
        | some chunk =>
          if chunk.lengthU32 ≠ data_length then
            ParseOutcome.err "Invalid chunk length declared"
          else if chunk.crc ≠ bytes_to_number crc_bytes then
            ParseOutcome.err "Invalid chunk CRC length declared"
          else ParseOutcome.ok chunk

/-- Modelled from the spec: `Chunk::as_bytes` is `todo!()` in
`src/chunk.rs`, so its body is missing from the source. Spec section 4.2
defines `serialize()` as producing exactly 4 + 4 + length + 4 bytes:
big-endian `length` (4 bytes), the 4 tag bytes, the payload bytes
verbatim, big-endian `checksum` (4 bytes). -/
def as_bytes (c : Chunk) : List Nat :=
  u32_be c.lengthU32 ++ c.chunk_type.bytes ++ c.chunk_data ++ u32_be c.crc

end Chunk

/-- The UTF-8 bytes of the string used by the end-to-end scenario of the
spec and by the tests in `src/chunk.rs`:
"This is where your secret message will be!". -/
def secretMessage : List Nat :=
  [84, 104, 105, 115, 32, 105, 115, 32, 119, 104, 101, 114, 101, 32, 121,
   111, 117, 114, 32, 115, 101, 99, 114, 101, 116, 32, 109, 101, 115, 115,
   97, 103, 101, 32, 119, 105, 108, 108, 32, 98, 101, 33]

/-- Replace byte `i` of a buffer by the same byte with bit `k` flipped. -/
def flipBit (i k : Nat) (bs : List Nat) : List Nat :=
  bs.set i (bs.getD i 0 ^^^ 2 ^ k)

/-- The big-endian encoding of a `u32` has 4 bytes. -/
theorem u32_be_length (n : Nat) : (u32_be n).length = 4 := rfl

/-- Every byte of the big-endian encoding is below 256. -/
theorem u32_be_lt (n : Nat) : ∀ b ∈ u32_be n, b < 256 := by
  simp only [u32_be, List.mem_cons, List.not_mem_nil, or_false]
  rintro b (rfl | rfl | rfl | rfl) <;> omega

/-- Decoding the big-endian encoding of a value below 2 ^ 32 recovers the
value. -/
theorem bytes_to_number_u32_be (n : Nat) (h : n < 2 ^ 32) :
    bytes_to_number (u32_be n) = n := by
  simp only [bytes_to_number, u32_be, List.getD_cons_zero, List.getD_cons_succ]
  omega

/-- One CRC bit step keeps the state below 2 ^ 32. -/
theorem crcBit_lt (c : Nat) (h : c < 2 ^ 32) : crcBit c < 2 ^ 32 := by
  unfold crcBit
  split
  · exact Nat.xor_lt_two_pow (by omega) (by norm_num)
  · omega

/-- One CRC byte step keeps the state below 2 ^ 32. -/
theorem crcByte_lt (c b : Nat) (hc : c < 2 ^ 32) (hb : b < 256) :
    crcByte c b < 2 ^ 32 := by
  unfold crcByte
  have h0 : c ^^^ b < 2 ^ 32 := Nat.xor_lt_two_pow hc (by omega)
  exact crcBit_lt _ (crcBit_lt _ (crcBit_lt _ (crcBit_lt _ (crcBit_lt _
    (crcBit_lt _ (crcBit_lt _ (crcBit_lt _ h0)))))))

/-- Folding CRC byte steps over a byte list keeps the state below 2 ^ 32. -/
theorem foldl_crcByte_lt (l : List Nat) (c : Nat) (hc : c < 2 ^ 32)
    (hl : ∀ b ∈ l, b < 256) : l.foldl crcByte c < 2 ^ 32 := by
  induction l generalizing c with
  | nil => simpa using hc
  | cons x xs ih =>
    simp only [List.foldl_cons]
    exact ih _ (crcByte_lt _ _ hc (hl x (by simp))) fun b hb => hl b (by simp [hb])

/-- The CRC-32 of a byte list is below 2 ^ 32. -/
theorem checksum_ieee_lt (l : List Nat) (hl : ∀ b ∈ l, b < 256) :
    checksum_ieee l < 2 ^ 32 := by
  unfold checksum_ieee
  exact Nat.xor_lt_two_pow (foldl_crcByte_lt l _ (by norm_num) hl) (by norm_num)

/-- Every byte of a tag passing the letter check is below 256. -/
theorem letter_bytes_lt_256 (ct : ChunkType) (h : ct.is_bytes_value_valid = true) :
    ∀ b ∈ ct.bytes, b < 256 := by
  intro b hb
  have hball := List.all_eq_true.mp h b hb
  simp only [Bool.or_eq_true, Bool.and_eq_true, decide_eq_true_eq] at hball
  omega

/-- Behaviour of `Chunk::new` on a 4-byte tag. -/
theorem Chunk.new_eq_some (t : ChunkType) (p : List Nat) (h4 : t.bytes.length = 4) :
    Chunk.new t p = some ⟨p.length, t, p, checksum_ieee (t.bytes ++ p)⟩ := by
  simp [Chunk.new, ChunkType.bytesArr, h4]

/-- Behaviour of `Chunk::new` on a tag without exactly 4 bytes: the
`bytes()` call panics. -/
theorem Chunk.new_eq_none (t : ChunkType) (p : List Nat) (h4 : t.bytes.length ≠ 4) :
    Chunk.new t p = none := by
  simp [Chunk.new, ChunkType.bytesArr, h4]

/-- Inversion for a successful `Chunk::new`. -/
theorem Chunk.new_some_inv (t : ChunkType) (p : List Nat) (c : Chunk)
    (h : Chunk.new t p = some c) :
    t.bytes.length = 4 ∧ c = ⟨p.length, t, p, checksum_ieee (t.bytes ++ p)⟩ := by
  by_cases h4 : t.bytes.length = 4
  · rw [Chunk.new_eq_some t p h4] at h
    exact ⟨h4, (Option.some.inj h).symm⟩
  · rw [Chunk.new_eq_none t p h4] at h
    cases h

/-- Evaluation of `Chunk::try_from` on a buffer laid out as a serialized
record: a declared length field, a 4-byte tag, a payload, and a 4-byte
trailer. -/
theorem Chunk.tryFrom_frame (t p trailer : List Nat) (L : Nat) (ht4 : t.length = 4)
    (hL : L < 2 ^ 32) (hlen : p.length < 2 ^ 32) (htrl : trailer.length = 4) :
    Chunk.tryFrom (u32_be L ++ t ++ p ++ trailer) =
      if p.length ≠ L then ParseOutcome.err "Invalid chunk length declared"
      else if checksum_ieee (t ++ p) ≠ bytes_to_number trailer then
        ParseOutcome.err "Invalid chunk CRC length declared"
      else ParseOutcome.ok ⟨p.length, ⟨t⟩, p, checksum_ieee (t ++ p)⟩ := by
  have hvlen : (u32_be L ++ t ++ p ++ trailer).length = 12 + p.length := by
    simp [u32_be_length, ht4, htrl]
    omega
  have e1 : (u32_be L ++ t ++ p ++ trailer).take 4 = u32_be L := by
    rw [List.append_assoc, List.append_assoc]
    exact List.take_left' (u32_be_length L)
  have e2 : ((u32_be L ++ t ++ p ++ trailer).drop 4).take 4 = t := by
    rw [List.append_assoc, List.append_assoc, List.drop_left' (u32_be_length L)]
    exact List.take_left' ht4
  have e3 : (u32_be L ++ t ++ p ++ trailer).drop 8 = p ++ trailer := by
    have hassoc : u32_be L ++ t ++ p ++ trailer = (u32_be L ++ t) ++ (p ++ trailer) := by
      simp [List.append_assoc]
    rw [hassoc]
    exact List.drop_left' (by simp [u32_be_length, ht4])
  unfold Chunk.tryFrom
  rw [hvlen]
  rw [if_neg (by omega), if_neg (by omega)]
  simp only [e1, e2, e3, ChunkType.tryFromArr, List.length_append, htrl]
  rw [if_neg (by omega)]
  have e4 : p.length + 4 - 4 = p.length := by omega
  rw [e4, List.take_left, List.drop_left]
  rw [Chunk.new_eq_some ⟨t⟩ p ht4]
  simp only [Chunk.lengthU32, Nat.mod_eq_of_lt hlen, bytes_to_number_u32_be L hL]

/-- Unfolding of the big-endian decoder on an explicit 4-byte list. -/
theorem bytes_to_number_explicit (a b c d : Nat) :
    bytes_to_number [a, b, c, d] = a * 2 ^ 24 + b * 2 ^ 16 + c * 2 ^ 8 + d := rfl

/-- Unfolding of the bit flip at byte 0 of an explicit 4-byte list. -/
theorem flipBit_zero (k a b c d : Nat) :
    flipBit 0 k [a, b, c, d] = [a ^^^ 2 ^ k, b, c, d] := rfl

/-- Unfolding of the bit flip at byte 1 of an explicit 4-byte list. -/
theorem flipBit_one (k a b c d : Nat) :
    flipBit 1 k [a, b, c, d] = [a, b ^^^ 2 ^ k, c, d] := rfl

/-- Unfolding of the bit flip at byte 2 of an explicit 4-byte list. -/
theorem flipBit_two (k a b c d : Nat) :
    flipBit 2 k [a, b, c, d] = [a, b, c ^^^ 2 ^ k, d] := rfl

/-- Unfolding of the bit flip at byte 3 of an explicit 4-byte list. -/
theorem flipBit_three (k a b c d : Nat) :
    flipBit 3 k [a, b, c, d] = [a, b, c, d ^^^ 2 ^ k] := rfl

/-- Flipping one bit of a byte changes the byte. -/
theorem xor_two_pow_ne (d k : Nat) : d ^^^ 2 ^ k ≠ d := by
  intro h
  have h2 : d ^^^ (d ^^^ 2 ^ k) = d ^^^ d := by rw [h]
  rw [Nat.xor_cancel_left, Nat.xor_self] at h2
  have hpow : 0 < 2 ^ k := pow_pos (by norm_num) k
  omega

/-- Decoding a big-endian encoding with one bit of one byte flipped never
gives back the encoded value. -/
theorem bytes_to_number_flip_ne (n i k : Nat) (hn : n < 2 ^ 32) (hi : i < 4) :
    bytes_to_number (flipBit i k (u32_be n)) ≠ n := by
  interval_cases i
  · simp only [u32_be]
    rw [flipBit_zero, bytes_to_number_explicit]
    have hx := xor_two_pow_ne (n / 2 ^ 24 % 256) k
    omega
  · simp only [u32_be]
    rw [flipBit_one, bytes_to_number_explicit]
    have hx := xor_two_pow_ne (n / 2 ^ 16 % 256) k
    omega
  · simp only [u32_be]
    rw [flipBit_two, bytes_to_number_explicit]
    have hx := xor_two_pow_ne (n / 2 ^ 8 % 256) k
    omega
  · simp only [u32_be]
    rw [flipBit_three, bytes_to_number_explicit]
    have hx := xor_two_pow_ne (n % 256) k
    omega

/-- C3: serializing a record built by `Chunk::new` from a 4-letter tag and
a payload of fewer than 2 ^ 32 bytes produces exactly 4 + 4 + length + 4
bytes laid out as big-endian length, the 4 tag bytes, the payload
verbatim, and the big-endian checksum; parsing that serialization
succeeds and returns the very same record (same tag bytes, payload and
checksum). -/
theorem C3_serialize_roundtrip (t : ChunkType) (p : List Nat)
    (ht4 : t.bytes.length = 4) (hletters : t.is_bytes_value_valid = true)
    (hp : ∀ b ∈ p, b < 256) (hlen : p.length < 2 ^ 32)
    (c : Chunk) (hnew : Chunk.new t p = some c) :
    c.as_bytes.length = 4 + 4 + p.length + 4 ∧
    c.as_bytes = u32_be p.length ++ t.bytes ++ p ++ u32_be c.crc ∧
    Chunk.tryFrom c.as_bytes = ParseOutcome.ok c := by
  obtain ⟨-, rfl⟩ := Chunk.new_some_inv t p c hnew
  have hcb : ∀ b ∈ t.bytes ++ p, b < 256 := by
    intro b hb
    rcases List.mem_append.mp hb with h | h
    · exact letter_bytes_lt_256 t hletters b h
    · exact hp b h
  have hcrc : checksum_ieee (t.bytes ++ p) < 2 ^ 32 := checksum_ieee_lt _ hcb
  have habytes : (⟨p.length, t, p, checksum_ieee (t.bytes ++ p)⟩ : Chunk).as_bytes =
      u32_be p.length ++ t.bytes ++ p ++ u32_be (checksum_ieee (t.bytes ++ p)) := by
    simp only [Chunk.as_bytes, Chunk.lengthU32]
    rw [Nat.mod_eq_of_lt hlen]
  refine ⟨?_, habytes, ?_⟩
  · rw [habytes]
    simp only [List.length_append, u32_be_length, ht4]
  · rw [habytes,
      Chunk.tryFrom_frame t.bytes p (u32_be (checksum_ieee (t.bytes ++ p))) p.length
        ht4 hlen hlen (u32_be_length _)]
    rw [if_neg (by simp), if_neg (by simp [bytes_to_number_u32_be _ hcrc])]

/-- C3 witness: the round trip evaluated at the tag "RuSt" and the empty
payload. -/
theorem C3_serialize_roundtrip_witness :
    Chunk.new ⟨[82, 117, 83, 116]⟩ [] =
      some (Chunk.mk 0 ⟨[82, 117, 83, 116]⟩ [] 3565422908) ∧
    Chunk.tryFrom (Chunk.mk 0 ⟨[82, 117, 83, 116]⟩ [] 3565422908).as_bytes =
      ParseOutcome.ok (Chunk.mk 0 ⟨[82, 117, 83, 116]⟩ [] 3565422908) :=
  ⟨by decide,
   (C3_serialize_roundtrip ⟨[82, 117, 83, 116]⟩ [] (by decide) (by decide)
     (by decide) (by decide) _ (by decide)).2.2⟩

/-- C7: for a well-formed serialized record (4-byte letter-range-free tag
of bytes, payload of fewer than 2 ^ 32 bytes, correct length field and
CRC trailer), flipping any single bit of any byte of the 4-byte CRC
trailer makes the parse fail with the CRC mismatch error, and replacing
the declared length field by any other `u32` value, payload unchanged,
makes the parse fail with the length mismatch error. -/
theorem C7_tamper_detection (t p : List Nat) (ht4 : t.length = 4)
    (htb : ∀ b ∈ t, b < 256) (hp : ∀ b ∈ p, b < 256) (hlen : p.length < 2 ^ 32) :
    (∀ i k, i < 4 → k < 8 →
      Chunk.tryFrom (u32_be p.length ++ t ++ p ++
          flipBit i k (u32_be (checksum_ieee (t ++ p)))) =
        ParseOutcome.err "Invalid chunk CRC length declared") ∧
    (∀ L, L < 2 ^ 32 → L ≠ p.length →
      Chunk.tryFrom (u32_be L ++ t ++ p ++ u32_be (checksum_ieee (t ++ p))) =
        ParseOutcome.err "Invalid chunk length declared") := by
  have hcb : ∀ b ∈ t ++ p, b < 256 := by
    intro b hb
    rcases List.mem_append.mp hb with h | h
    · exact htb b h
    · exact hp b h
  have hcrc : checksum_ieee (t ++ p) < 2 ^ 32 := checksum_ieee_lt _ hcb
  constructor
  · intro i k hi hk
    have htrl : (flipBit i k (u32_be (checksum_ieee (t ++ p)))).length = 4 := by
      simp [flipBit, u32_be]
    rw [Chunk.tryFrom_frame t p _ p.length ht4 hlen hlen htrl]
    rw [if_neg (by simp),
      if_pos (Ne.symm (bytes_to_number_flip_ne (checksum_ieee (t ++ p)) i k hcrc hi))]
  · intro L hL hne
    rw [Chunk.tryFrom_frame t p _ L ht4 hL hlen (u32_be_length _)]
    rw [if_pos (Ne.symm hne)]

/-- C7 witness: both tampering cases evaluated at the tag "RuSt", the
empty payload, bit 0 of trailer byte 0, and declared length 1. -/
theorem C7_tamper_detection_witness :
    Chunk.tryFrom (u32_be (List.length ([] : List Nat)) ++ [82, 117, 83, 116] ++ [] ++
        flipBit 0 0 (u32_be (checksum_ieee ([82, 117, 83, 116] ++ [])))) =
      ParseOutcome.err "Invalid chunk CRC length declared" ∧
    Chunk.tryFrom (u32_be 1 ++ [82, 117, 83, 116] ++ [] ++
        u32_be (checksum_ieee ([82, 117, 83, 116] ++ []))) =
      ParseOutcome.err "Invalid chunk length declared" :=
  ⟨(C7_tamper_detection [82, 117, 83, 116] [] (by decide) (by decide) (by decide)
      (by decide)).1 0 0 (by decide) (by decide),
   (C7_tamper_detection [82, 117, 83, 116] [] (by decide) (by decide) (by decide)
      (by decide)).2 1 (by decide) (by decide)⟩

/-- C9: tag bit semantics at the five concrete tags of the spec: "RuSt"
(82,117,83,116) is critical, not public, reserved-bit valid, safe to copy
and valid; "ruSt" is not critical; "RUSt" is public; "Rust" has an invalid
reserved bit and is not valid; "RuST" is not safe to copy. -/
theorem C9_tag_bit_semantics :
    (ChunkType.mk [82, 117, 83, 116]).is_critical = true ∧
    (ChunkType.mk [82, 117, 83, 116]).is_public = false ∧
    (ChunkType.mk [82, 117, 83, 116]).is_reserved_bit_valid = true ∧
    (ChunkType.mk [82, 117, 83, 116]).is_safe_to_copy = true ∧
    (ChunkType.mk [82, 117, 83, 116]).is_valid = true ∧
    (ChunkType.mk [114, 117, 83, 116]).is_critical = false ∧
    (ChunkType.mk [82, 85, 83, 116]).is_public = true ∧
    (ChunkType.mk [82, 117, 115, 116]).is_reserved_bit_valid = false ∧
    (ChunkType.mk [82, 117, 115, 116]).is_valid = false ∧
    (ChunkType.mk [82, 117, 83, 84]).is_safe_to_copy = false := by
  decide

/-- C6 counterexample: with tag "RuSt" and the secret-message payload,
the constructed record reports length 42, not 44 as the claim states. -/
theorem C6_length_counterexample :
    (Chunk.new ⟨[82, 117, 83, 116]⟩ secretMessage).map Chunk.lengthU32 = some 42 ∧
    (Chunk.new ⟨[82, 117, 83, 116]⟩ secretMessage).map Chunk.lengthU32 ≠ some 44 := by
  decide

/-- C6 amended: parsing "RuSt" yields the tag bytes 82,117,83,116, and the
record built from that tag and the 42-byte secret message has checksum
2882656334 and length 42. -/
theorem C6_end_to_end :
    ChunkType.from_str [82, 117, 83, 116] = Except.ok ⟨[82, 117, 83, 116]⟩ ∧
    (Chunk.new ⟨[82, 117, 83, 116]⟩ secretMessage).map Chunk.crc = some 2882656334 ∧
    (Chunk.new ⟨[82, 117, 83, 116]⟩ secretMessage).map Chunk.lengthU32 = some 42 := by
  decide

/-- C4 counterexample: parsing the 2-byte all-letter string "Ab" succeeds
even though its byte length is not 4, refuting the claim that every length
other than 4 is rejected. -/
theorem C4_counterexample :
    ChunkType.from_str [65, 98] = Except.ok ⟨[65, 98]⟩ ∧
    ([65, 98] : List Nat).length ≠ 4 := by
  decide

/-- C4 amended: `from_str` errors when the input has more than 4 bytes, or
when some byte is outside the ASCII letter ranges; otherwise (length at
most 4 and all bytes letters) it returns a tag holding the bytes of the
input, so letter strings shorter than 4 bytes are accepted. -/
theorem C4_from_str_spec (s : List Nat) :
    (4 < s.length → ChunkType.from_str s = Except.error "Invalid size") ∧
    (s.length ≤ 4 → (ChunkType.mk s).is_bytes_value_valid = false →
      ChunkType.from_str s = Except.error "Invalid chunk") ∧
    (s.length ≤ 4 → (ChunkType.mk s).is_bytes_value_valid = true →
      ChunkType.from_str s = Except.ok ⟨s⟩) := by
  refine ⟨fun h => ?_, fun h hv => ?_, fun h hv => ?_⟩
  · simp [ChunkType.from_str, h]
  · simp [ChunkType.from_str, Nat.not_lt.mpr h, hv]
  · simp [ChunkType.from_str, Nat.not_lt.mpr h, hv]

/-- C4 witness: the amended statement applied to the concrete input "Ab". -/
theorem C4_from_str_spec_witness :
    ChunkType.from_str [65, 98] = Except.ok ⟨[65, 98]⟩ :=
  (C4_from_str_spec [65, 98]).2.2 (by decide) (by decide)

/-- C5 counterexample: a buffer whose four tag bytes are "0000"
(48,48,48,48, not ASCII letters), with declared length 0 and a matching
CRC trailer, parses successfully rather than failing with an invalid-tag
error. -/
theorem C5_counterexample :
    (ChunkType.mk [48, 48, 48, 48]).is_bytes_value_valid = false ∧
    Chunk.tryFrom ([0, 0, 0, 0] ++ [48, 48, 48, 48] ++ u32_be 211534962) =
      ParseOutcome.ok ⟨0, ⟨[48, 48, 48, 48]⟩, [], 211534962⟩ := by
  decide

/-- C5 amended: the record parse path performs no letter validation:
`ChunkType::try_from` on the four copied tag bytes always succeeds, so
`Chunk::try_from` never returns its tag-construction error, whatever the
input buffer. -/
theorem C5_no_tag_rejection (value : List Nat) :
    Chunk.tryFrom value ≠ ParseOutcome.err "Failed to build chunk type" := by
  unfold Chunk.tryFrom
  simp only [ChunkType.tryFromArr]
  repeat' split
  all_goals first | decide | simp

/-- C5 witness: the amended statement applied to the empty buffer. -/
theorem C5_no_tag_rejection_witness :
    Chunk.tryFrom [] ≠ ParseOutcome.err "Failed to build chunk type" :=
  C5_no_tag_rejection []

/-- C8: the Display implementation for ChunkType unwraps the result of the
UTF-8 decoding of its bytes, so rendering a tag built by the permissive
constructor from non-UTF8 bytes panics (modelled as `none`) instead of
returning an error value; the permissive constructor does accept such
bytes, and a letters-only tag renders as its own bytes. -/
theorem C8_display_panics :
    ChunkType.tryFromArr [255, 255, 255, 255] = Except.ok ⟨[255, 255, 255, 255]⟩ ∧
    (ChunkType.mk [255, 255, 255, 255]).display = none ∧
    (ChunkType.mk [82, 117, 83, 116]).display = some [82, 117, 83, 116] := by
  decide

/-- C2: evaluation of the record parse on truncated inputs: the empty
buffer, a 4-byte buffer and an 11-byte buffer all panic (out-of-bounds
slice or usize subtraction underflow) instead of returning a truncation
error, and a 12-byte buffer whose declared length exceeds the available
payload returns the length error, not a truncation error. -/
theorem C2_truncated_behaviour :
    Chunk.tryFrom [] = ParseOutcome.panic ∧
    Chunk.tryFrom [0, 0, 0, 0] = ParseOutcome.panic ∧
    Chunk.tryFrom [0, 0, 0, 100, 82, 117, 83, 116, 0, 0, 0] = ParseOutcome.panic ∧
    Chunk.tryFrom [0, 0, 0, 100, 82, 117, 83, 116, 0, 0, 0, 0] =
      ParseOutcome.err "Invalid chunk length declared" := by
  decide

/-- C10: the From String conversion stores any byte sequence unchecked, so
whenever the length of the input is not 4 it yields a tag on which the
bytes accessor panics (modelled as `none`); `from_str` likewise accepts an
all-letter string shorter than 4 bytes and yields such a panicking tag. -/
theorem C10_short_tag_bytes_panics (s : List Nat) :
    (ChunkType.fromString s).bytes = s ∧
    (s.length ≠ 4 → (ChunkType.fromString s).bytesArr = none) ∧
    (s.length < 4 → (ChunkType.mk s).is_bytes_value_valid = true →
      ChunkType.from_str s = Except.ok ⟨s⟩ ∧ (ChunkType.mk s).bytesArr = none) := by
  refine ⟨rfl, fun h => ?_, fun h hv => ⟨?_, ?_⟩⟩
  · simp [ChunkType.fromString, ChunkType.bytesArr, h]
  · simp [ChunkType.from_str, hv, Nat.not_lt.mpr (Nat.le_of_lt h)]
  · simp only [ChunkType.bytesArr]
    rw [if_neg (by simpa using Nat.ne_of_lt h)]

/-- C10 witness: the statement applied to the concrete 1-byte string "a". -/
theorem C10_short_tag_bytes_panics_witness :
    ChunkType.from_str [97] = Except.ok ⟨[97]⟩ ∧
    (ChunkType.mk [97]).bytesArr = none :=
  (C10_short_tag_bytes_panics [97]).2.2 (by decide) (by decide)

/-- C1: every record obtained through `Chunk::new` or through a successful
`Chunk::try_from` carries a checksum equal to the CRC-32 of its own tag
bytes followed by its data, and a length equal to its data length. -/
theorem C1_checksum_invariant :
    (∀ t p c, Chunk.new t p = some c →
      c.crc = checksum_ieee (t.bytes ++ p) ∧ c.length = p.length ∧
        c.chunk_type = t ∧ c.chunk_data = p) ∧
    (∀ v c, Chunk.tryFrom v = ParseOutcome.ok c →
      c.crc = checksum_ieee (c.chunk_type.bytes ++ c.chunk_data) ∧
        c.length = c.chunk_data.length) := by
  constructor
  · intro t p c h
    obtain ⟨h4, rfl⟩ := Chunk.new_some_inv t p c h
    exact ⟨rfl, rfl, rfl, rfl⟩
  · intro v c h
    unfold Chunk.tryFrom at h
    split at h
    · cases h
    split at h
    · cases h
    split at h
    · cases h
    dsimp only [] at h
    split at h
    · cases h
    split at h
    · cases h
    rename_i chunk hnew
    split at h
    · cases h
    split at h
    · cases h
    obtain ⟨h4, rfl⟩ := Chunk.new_some_inv _ _ _ hnew
    cases h
    exact ⟨rfl, rfl⟩

/-- C1 witness: both parts applied to a concrete record with tag "RuSt"
and empty payload. -/
theorem C1_checksum_invariant_witness :
    ((Chunk.mk 0 ⟨[82, 117, 83, 116]⟩ [] 3565422908).crc =
        checksum_ieee ((ChunkType.mk [82, 117, 83, 116]).bytes ++ []) ∧
      (Chunk.mk 0 ⟨[82, 117, 83, 116]⟩ [] 3565422908).length = ([] : List Nat).length ∧
      (Chunk.mk 0 ⟨[82, 117, 83, 116]⟩ [] 3565422908).chunk_type = ⟨[82, 117, 83, 116]⟩ ∧
      (Chunk.mk 0 ⟨[82, 117, 83, 116]⟩ [] 3565422908).chunk_data = []) ∧
    ((Chunk.mk 0 ⟨[82, 117, 83, 116]⟩ [] 3565422908).crc =
        checksum_ieee ((Chunk.mk 0 ⟨[82, 117, 83, 116]⟩ [] 3565422908).chunk_type.bytes ++
          (Chunk.mk 0 ⟨[82, 117, 83, 116]⟩ [] 3565422908).chunk_data) ∧
      (Chunk.mk 0 ⟨[82, 117, 83, 116]⟩ [] 3565422908).length =
        (Chunk.mk 0 ⟨[82, 117, 83, 116]⟩ [] 3565422908).chunk_data.length) :=
  ⟨C1_checksum_invariant.1 ⟨[82, 117, 83, 116]⟩ [] _ (by decide),
   C1_checksum_invariant.2 ([0, 0, 0, 0] ++ [82, 117, 83, 116] ++ u32_be 3565422908) _
     (by decide)⟩

end Pngme
